import Mathlib

/-!
Verification of the gpii-service supervisor (stegru/gpii-service).

Shallow embedding of the child-process supervisor (src/gpii-process.js),
the launcher (src/gpii-ipc.js), the connection authenticator
(src/gpii-connection.js) and the Windows-binding helpers (src/windows.js).
JavaScript numbers holding pids are modelled as Nat (with Option Nat for
null/undefined where a variable can be null), JS truthiness is made
explicit, and OS side effects (CloseHandle, process.kill, setTimeout,
event emission) are recorded in explicit output fields so theorems can
speak about them.
-/

namespace GpiiService

/-! ## Supervisor state (src/gpii-process.js module-level variables) -/

/-- Module-level mutable fields of the gpiiProcess module that the
supervisor functions read and write: `gpiiProcess.pid` (null initially),
`gpiiProcess.startingGPII`, and `gpiiProcess.restartCount` (undefined
until first assigned, hence Option). -/
structure GpiiProcessState where
  pid : Option Nat
  startingGPII : Bool
  restartCount : Option Nat
deriving DecidableEq, Repr

/-- JS `x || 0` on the possibly-undefined restartCount. -/
def orZero : Option Nat → Nat
  | none => 0
  | some n => n

/-- JS truthiness of a Number-or-null variable holding a pid. -/
def pidTruthy : Option Nat → Bool
  | none => false
  | some p => p != 0

/-! ## gpiiStopped (src/gpii-process.js lines 193-224)

Inputs: the state, the pid read back from the pid file
(`readPidFile()`, null when the file is gone), and `timespan[0]` = the
whole-seconds component of `process.hrtime(gpiiProcess.lastStart)`.
Output: the new state and, when `setTimeout(startGPII, ...)` was called,
the delay in milliseconds that was passed to it (none = no restart
scheduled). -/

def gpiiStopped (st : GpiiProcessState) (pidFile : Option Nat) (seconds : Nat) :
    GpiiProcessState × Option Nat :=
  -- var crashed = (pid && pid === gpiiProcess.pid);
  let crashed : Bool :=
    match pidFile with
    | some p => (p != 0) && (st.pid == some p)
    | none => false
  -- gpiiProcess.pid = null;
  if crashed then
    if seconds > 20 then
      -- gpiiProcess.restartCount = 0; restart stays true
      ({ pid := none, startingGPII := st.startingGPII, restartCount := some 0 },
        some (0 * 10000 + 1000))
    else
      -- gpiiProcess.restartCount = (gpiiProcess.restartCount || 0) + 1;
      let rc := orZero st.restartCount + 1
      if rc > 2 then
        -- restart = false
        ({ pid := none, startingGPII := st.startingGPII, restartCount := some rc }, none)
      else
        ({ pid := none, startingGPII := st.startingGPII, restartCount := some rc },
          some (rc * 10000 + 1000))
  else
    ({ pid := none, startingGPII := st.startingGPII, restartCount := st.restartCount }, none)

/-! ## startGPII (src/gpii-process.js lines 135-175)

The spawn (`ipc.startProcess`) is the only suspension point; its outcome
is an input. Observable actions are recorded in order. -/

inductive SpawnOutcome where
  | ok (pid : Nat)
  | fail
deriving DecidableEq, Repr

inductive StartAction where
  | logWarn
  | spawn
  | eventStartedGpii (pid : Nat)
  | logError
deriving DecidableEq, Repr

/-- One run of startGPII: `checkResult` is the value of
`gpiiProcess.checkGPII()` (an externally-running pid or null), `outcome`
is how the `ipc.startProcess` promise settles. On rejection the handler
runs `service.logError(err)` and nothing else: `startingGPII` is not
reset and no retry is scheduled. -/
def startGPII (st : GpiiProcessState) (checkResult : Option Nat) (outcome : SpawnOutcome) :
    GpiiProcessState × List StartAction :=
  -- var running = gpiiProcess.startingGPII || gpiiProcess.checkGPII();
  let running : Bool := st.startingGPII || checkResult.isSome
  if running then
    (st, [.logWarn])
  else
    match outcome with
    | .ok p =>
        ({ pid := some p, startingGPII := false, restartCount := st.restartCount },
          [.spawn, .eventStartedGpii p])
    | .fail =>
        ({ pid := st.pid, startingGPII := true, restartCount := st.restartCount },
          [.spawn, .logError])

/-! ## stopGPII (src/gpii-process.js lines 180-186) -/

/-- stopGPII: if a pid is recorded (JS-truthy) then log, `process.kill`
it and null the field. Returns the new state and the list of pids
signalled. -/
def stopGPII (st : GpiiProcessState) : GpiiProcessState × List Nat :=
  match st.pid with
  | some p =>
      if p != 0 then
        ({ pid := none, startingGPII := st.startingGPII, restartCount := st.restartCount }, [p])
      else (st, [])
  | none => (st, [])

/-! ## ipc.execute (src/gpii-ipc.js lines 395-497)

Handle bookkeeping of the launcher. `tok` is the value returned by
`windows.getDesktopUser()` (0 = no interactive user; a nonzero handle
otherwise — getDesktopUser returns 0 rather than null on the soft error
codes). `cp` is the outcome of `CreateProcessAsUserW`: on success the
(dwProcessId, hProcess, hThread) triple it filled in, none when it
returned 0 (failure). The model records every `CloseHandle` call made by
execute, in order, and with which token `CreateProcessAsUserW` was
invoked (none = it was never reached because execute threw first). -/

structure ExecOutcome where
  /-- some (pid, hProcess) when execute returned normally; none when it threw. -/
  result : Option (Nat × Nat)
  /-- handles passed to CloseHandle by execute, in call order. -/
  closed : List Nat
  /-- some t when CreateProcessAsUserW was invoked with token t; none otherwise. -/
  createdWithToken : Option Nat
deriving DecidableEq, Repr

set_option linter.unusedVariables false in
/-- Handle bookkeeping of ipc.execute; inheritHandles are marked
inheritable and put in the lpReserved2 blob but never closed, so they do
not influence the recorded outcome. -/
def execute (tok : Nat) (alwaysRun : Bool) (inheritHandles : List Nat)
    (cp : Option (Nat × Nat × Nat)) : ExecOutcome :=
  -- var userToken = windows.getDesktopUser(); if (!userToken) { ... }
  if tok = 0 ∧ ¬ alwaysRun then
    -- throw before the try block: no CloseHandle runs, no process is created.
    { result := none, closed := [], createdWithToken := none }
  else
    -- userToken is tok, or 0 on the alwaysRun fallback.
    let userToken := tok
    match cp with
    | some (pid, hProcess, hThread) =>
        -- success: CloseHandle(hThread) in the try block, then the finally
        -- block closes userToken when it is truthy. inheritHandles are
        -- marked inheritable but never closed.
        { result := some (pid, hProcess)
          closed := [hThread] ++ (if userToken ≠ 0 then [userToken] else [])
          createdWithToken := some userToken }
    | none =>
        -- throw winapi.error("CreateProcessAsUser"): only the finally block runs.
        { result := none
          closed := if userToken ≠ 0 then [userToken] else []
          createdWithToken := some userToken }

/-- ipc.startProcess (src/gpii-ipc.js lines 286-301): creates the pipe
pair, passes the client handle through options.inheritHandles to
execute, and returns pipe + pid + process handle. No further CloseHandle
is issued after execute returns, so the closed list of the whole call is
exactly that of execute. -/
structure StartProcessOutcome where
  serverPipe : Nat
  pid : Option Nat
  closed : List Nat
deriving DecidableEq, Repr

def startProcess (serverPipe clientHandle tok : Nat) (alwaysRun : Bool)
    (cp : Option (Nat × Nat × Nat)) : StartProcessOutcome :=
  let r := execute tok alwaysRun [clientHandle] cp
  { serverPipe := serverPipe, pid := r.result.map Prod.fst, closed := r.closed }

/-! ## ipc.generatePipeName (src/gpii-ipc.js lines 308-312)

`"\\\\.\\pipe\\gpii-" + crypto.randomBytes(18).toString("base64").replace(/[\\/]/g, ".")`.
Base64 is the standard alphabet with `=` padding, as produced by node
Buffer.toString("base64"); for 18 bytes (a multiple of 3) no padding
arises, but the encoder is total. -/

def b64Alphabet : List Char :=
  "ABCDEFGHIJKLMNOPQRSTUVWXYZabcdefghijklmnopqrstuvwxyz0123456789+/".data

def b64char (n : Nat) : Char := b64Alphabet.getD n 'A'

def base64EncodeTriples : List Nat → List Char
  | b0 :: b1 :: b2 :: rest =>
      let n := (b0 % 256) * 65536 + (b1 % 256) * 256 + (b2 % 256)
      b64char (n / 262144) :: b64char (n / 4096 % 64) :: b64char (n / 64 % 64) ::
        b64char (n % 64) :: base64EncodeTriples rest
  | [b0, b1] =>
      let n := (b0 % 256) * 1024 + (b1 % 256) * 4
      [b64char (n / 4096), b64char (n / 64 % 64), b64char (n % 64), '=']
  | [b0] =>
      let n := (b0 % 256) * 16
      [b64char (n / 64), b64char (n % 64), '=', '=']
  | [] => []

/-- The regex replace of `/` and `\` by `.` applied to every character. -/
def replaceSlashes (s : List Char) : List Char :=
  s.map (fun c => if c = '/' ∨ c = '\\' then '.' else c)

/-- The reserved named-pipe prefix `\\.\pipe\` (9 characters). -/
def pipePre : List Char := "\\\\.\\pipe\\".data

/-- generatePipeName on the 18 random bytes drawn by crypto.randomBytes. -/
def generatePipeName (bytes : List Nat) : List Char :=
  "\\\\.\\pipe\\gpii-".data ++ replaceSlashes (base64EncodeTriples bytes)

/-! ## windows.isParentPid (src/windows.js lines 363-365)

gpii-connection.js runs against the copy of the Windows-binding module
that defines getTcpConnectionPids; in that copy isParentPid has an empty
function body, so every call returns undefined. undefined is JS-falsy,
both inside the `||` of checkConnection and in the `if (!valid)` of
connected, so the parent-chain disjunct can never admit a connection.
(The divergent second copy of the module implements a real chain walk,
but it lacks getTcpConnectionPids, so checkConnection cannot run against
it.) -/

set_option linter.unusedVariables false in
/-- The empty-bodied stub: `windows.isParentPid = function (childPid,
parentPid) { };` returns undefined, modelled by its truthiness false. -/
def isParentPid (childPid : Option Nat) (target : Nat) : Bool :=
  false

/-- Spec-side relation, written from the words of the claim only (for
comparison with the code): the remote pid is related to the expected
child through a parent-pid chain of depth at most 5, i.e. it is an
ancestor of the child within 5 steps of the parent-of map `ppid`. The
windows module that gpii-connection.js runs against contains no
implementation of this walk. -/
def specAncestorWithin (ppid : Nat → Option Nat) : Nat → Nat → Nat → Bool
  | 0, _, _ => false
  | fuel + 1, child, target =>
      match ppid child with
      | none => false
      | some q => (q == target) || specAncestorWithin ppid fuel q target

/-! ## gpiiConnection.checkConnection (src/gpii-connection.js lines 114-122)

`windows.getTcpConnectionPids` is modelled by its result `lookup`:
none when the function returned null (size-probe failure), otherwise the
pair (localPid, remotePid) of table owners, each none when no matching
established row was found (the field stays undefined). A dwOwningPid of
0 in the table means the row shows no owning process; it is JS-falsy. -/

def checkConnection (selfPid : Nat) (childPid : Option Nat)
    (lookup : Option (Option Nat × Option Nat)) : Bool :=
  match lookup with
  | none => false
  | some (lp, rp) =>
      match rp with
      | none => false
      | some r =>
          -- pids && (pids.localPid === process.pid) && pids.remotePid &&
          --   ((pids.remotePid === gpiiConnection.pid) || windows.isParentPid(...))
          (lp == some selfPid) && (r != 0) &&
            ((childPid == some r) || isParentPid childPid r)

/-! ## gpiiConnection.connected and the message handlers
(src/gpii-connection.js lines 56-106)

Module fields: `gpiiConnection.socket` (initialized to null and, in this
version of the file, never reassigned) and the `socket` field of the
service module.

In service.js, `service.module(name)` returns one distinct object per
module name (a fresh `{}` registered in service.modules; only the name
"service" maps to the service object itself), so the object returned by
`service.module("gpiiConnection")` is not the `service` object; the
assignment `service.socket = new JsonSocket(socket)` in connected
therefore writes a field of the service module, not
`gpiiConnection.socket`. -/

structure ConnState where
  /-- gpiiConnection.socket (line 29: initialized to null). -/
  gpiiSocket : Option Nat
  /-- service.socket, assigned in connected (line 69). -/
  serviceSocket : Option Nat
deriving DecidableEq, Repr

def initialConnState : ConnState := { gpiiSocket := none, serviceSocket := none }

/-- Observable outcome of the connected handler for one inbound socket. -/
structure ConnectOutcome where
  /-- events published through gpiiConnection.event. -/
  events : List String
  /-- whether socket.end() was called on the inbound socket. -/
  socketEnded : Bool
  /-- whether gotMessage was installed as the message listener
  (only done on the accept path, so a rejected connection can never
  produce a message event). -/
  messageHandlerInstalled : Bool
deriving DecidableEq, Repr

/-- gpiiConnection.connected: reject (end + warn, no events) when
checkConnection failed, else wrap the socket (id `sock`) in a JsonSocket
stored on service.socket, install the handlers and emit "connected". -/
def connected (st : ConnState) (sock : Nat) (valid : Bool) : ConnState × ConnectOutcome :=
  if valid then
    ({ st with serviceSocket := some sock },
      { events := ["connected"], socketEnded := false, messageHandlerInstalled := true })
  else
    (st, { events := [], socketEnded := true, messageHandlerInstalled := false })

/-- gpiiConnection.sendMessage: reads gpiiConnection.socket and calls
its sendMessage with {type, payload}. none models the TypeError thrown
when gpiiConnection.socket is null. Payloads are opaque (Nat). -/
def sendMessage (st : ConnState) (ty : String) (payload : Nat) : Option (Nat × String × Nat) :=
  match st.gpiiSocket with
  | none => none
  | some s => some (s, ty, payload)

/-- Result of running gotMessage on one inbound message: either a thrown
exception escaped the handler, or the list of frames sent back together
with the events published. -/
inductive MsgResult where
  | threw
  | ok (replies : List (Nat × String × Nat)) (events : List (String × Nat))
deriving DecidableEq, Repr

/-- gpiiConnection.gotMessage: switch on message.type ("error": nothing;
"ping": sendMessage("pong", payload); default: nothing), then republish
as the event "message." ++ type. An exception from sendMessage aborts
the handler before the republish line. -/
def gotMessage (st : ConnState) (ty : String) (payload : Nat) : MsgResult :=
  if ty = "error" then
    .ok [] [("message." ++ ty, payload)]
  else if ty = "ping" then
    match sendMessage st "pong" payload with
    | none => .threw
    | some frame => .ok [frame] [("message." ++ ty, payload)]
  else
    .ok [] [("message." ++ ty, payload)]

/-! ## checkGPII (src/gpii-process.js lines 69-130)

readPidFile reads the pid file and applies the JS builtin
`parseInt(content)`; a read failure makes pid null, a content without a
parsable number makes it NaN. checkGPII probes a truthy pid with
`process.kill(pid, 0)` through isProcessRunning and reports the pid only
when the probe succeeds. The probe outcome is the oracle `alive`; every
probed pid is recorded. -/

/-- A JS Number-or-null as produced by readPidFile. -/
inductive JSNum where
  | null
  | nan
  | num (n : Int)
deriving DecidableEq, Repr

def isJsSpace (c : Char) : Bool :=
  c = ' ' || c = '\t' || c = '\n' || c = '\r' || c = '\x0B' || c = '\x0C'

def isJsHexDigit (c : Char) : Bool :=
  c.isDigit || ('a' ≤ c && c ≤ 'f') || ('A' ≤ c && c ≤ 'F')

def jsHexDigitVal (c : Char) : Nat :=
  if c.isDigit then c.toNat - 48
  else if 'a' ≤ c ∧ c ≤ 'f' then c.toNat - 87
  else c.toNat - 55

def decValue (ds : List Char) : Int :=
  ds.foldl (fun acc c => acc * 10 + Int.ofNat (c.toNat - 48)) 0

def hexValue (ds : List Char) : Int :=
  ds.foldl (fun acc c => acc * 16 + Int.ofNat (jsHexDigitVal c)) 0

/-- The JS builtin parseInt with no radix argument: skip leading
whitespace, take an optional sign, autodetect a 0x/0X hex literal,
otherwise read the longest run of decimal digits; NaN (modelled none)
when no digit follows. -/
def parseIntJS (s : String) : Option Int :=
  let cs := s.data.dropWhile isJsSpace
  let signBody : Int × List Char :=
    match cs with
    | '-' :: rest => (-1, rest)
    | '+' :: rest => (1, rest)
    | _ => (1, cs)
  let sign := signBody.1
  let body := signBody.2
  let isHex : Bool :=
    match body with
    | '0' :: x :: _ => x = 'x' || x = 'X'
    | _ => false
  if isHex then
    let ds := (body.drop 2).takeWhile isJsHexDigit
    if ds.isEmpty then none else some (sign * hexValue ds)
  else
    let ds := body.takeWhile Char.isDigit
    if ds.isEmpty then none else some (sign * decValue ds)

/-- readPidFile on the file content (none = readFileSync threw: missing
or unreadable file, which makes the function return null). -/
def readPidFile (content : Option String) : JSNum :=
  match content with
  | none => .null
  | some s =>
      match parseIntJS s with
      | none => .nan
      | some n => .num n

/-- isProcessRunning: `if (pid)` guards the probe; a truthy pid is
probed with process.kill(pid, 0) (recorded), and running is true exactly
when the probe did not throw. -/
def isProcessRunning (alive : Int → Bool) : JSNum → Bool × List Int
  | .num n => if n ≠ 0 then (alive n, [n]) else (false, [])
  | _ => (false, [])

/-- checkGPII: `(pid && gpiiProcess.isProcessRunning(pid)) ? pid : null`.
Returns the reported pid (or none) and the list of pids probed. -/
def checkGPII (alive : Int → Bool) (content : Option String) : Option Int × List Int :=
  let pid := readPidFile content
  match pid with
  | .num n =>
      if n ≠ 0 then
        let pr := isProcessRunning alive (.num n)
        (if pr.1 then some n else none, pr.2)
      else (none, [])
  | _ => (none, [])

/-- A concrete parent-pid map used to instantiate the connection
theorems: process 9 has parent 4. -/
def ppidSample : Nat → Option Nat := fun p => if p = 9 then some 4 else none

/-! # Theorems -/

/-- C1 (counterexample): the claim says the supervisor stops scheduling
restarts exactly when the incremented failure counter exceeds
MAX_FAILED_STARTS = 3, so the fourth fast failure would be the first
with no restart. On the code, with two prior fast failures recorded, a
third fast crash (1 s of life, pid file still naming the dead pid 5)
increments the counter to 3 and schedules no restart, although 3 does
not exceed 3. -/
theorem gpiiStopped_third_fast_failure_stops :
    gpiiStopped ⟨some 5, false, some 2⟩ (some 5) 1
      = (⟨none, false, some 3⟩, none) ∧ ¬ (3 > 3) := by decide

/-- C1 (amended): for every crash of a tracked child that ran for less
than 20 seconds, the failure counter is incremented, and no restart is
scheduled exactly when the incremented counter exceeds
MAX_FAILED_STARTS = 2 (so the third consecutive fast failure is the
first one after which no restart is scheduled). -/
theorem gpiiStopped_fast_crash_increments_and_gives_up (st : GpiiProcessState) (p : Nat)
    (hpid : st.pid = some p) (hp : p ≠ 0) (seconds : Nat) (hs : seconds < 20) :
    (gpiiStopped st (some p) seconds).1.restartCount = some (orZero st.restartCount + 1)
    ∧ ((gpiiStopped st (some p) seconds).2 = none ↔ orZero st.restartCount + 1 > 2) := by
  have hns : ¬ (seconds > 20) := by omega
  by_cases hrc : orZero st.restartCount + 1 > 2 <;>
    simp [gpiiStopped, hpid, hp, hns, hrc]

/-- C1 (witness): the amended theorem applied to the state after two
fast failures and a third 1-second crash. -/
theorem gpiiStopped_fast_crash_increments_and_gives_up_witness :
    (gpiiStopped ⟨some 5, false, some 2⟩ (some 5) 1).1.restartCount = some (orZero (some 2) + 1)
    ∧ ((gpiiStopped ⟨some 5, false, some 2⟩ (some 5) 1).2 = none ↔ orZero (some 2) + 1 > 2) :=
  gpiiStopped_fast_crash_increments_and_gives_up ⟨some 5, false, some 2⟩ 5 rfl
    (by decide) 1 (by decide)

/-- C2: in the code, when the spawn promise rejects, the rejection
handler only logs the error: startingGPII remains true and no restart is
scheduled, so every subsequent startGPII call (here one whose spawn
would succeed, with no external instance running) short-circuits into
the already-running warning without attempting a spawn. The supervisor
is left permanently unable to start the child, contradicting the claim
that a spawn failure leads to Backoff with a later re-entry into
Starting. -/
theorem startGPII_spawn_failure_sticks :
    startGPII ⟨none, false, none⟩ none .fail
      = (⟨none, true, none⟩, [.spawn, .logError])
    ∧ startGPII ⟨none, true, none⟩ none (.ok 7)
      = (⟨none, true, none⟩, [.logWarn]) := by decide

/-- C3 (counterexample): the claim says every handle supplied for
inheritance is closed in the parent on every exit path, the client pipe
handle immediately after process creation returns. With token 100,
client pipe handle 42 and CreateProcessAsUser returning
(pid 7, hProcess 8, hThread 9) — or failing — the handle 42 is closed on
neither exit path of startProcess or execute. -/
theorem startProcess_client_handle_not_closed :
    ((startProcess 1 42 100 false (some (7, 8, 9))).closed.contains 42 = false)
    ∧ ((startProcess 1 42 100 false none).closed.contains 42 = false)
    ∧ ((execute 100 false [42] (some (7, 8, 9))).closed.contains 42 = false) := by decide

/-- C3 (amended): on every exit path of the launcher the acquired user
token, when one was acquired, is closed in the parent; the handles
supplied for inheritance, in particular the client pipe handle, are
never closed by the launcher, neither on success nor on failure. (The
hypotheses only say the inherited handle is a different OS handle from
the token and from the thread handle of the new process.) -/
theorem execute_closes_token_never_inherited (tok : Nat) (ar : Bool) (inherit : List Nat)
    (cp : Option (Nat × Nat × Nat)) :
    (tok ≠ 0 → tok ∈ (execute tok ar inherit cp).closed)
    ∧ (∀ h, h ∈ inherit → h ≠ tok →
        (∀ pid hpr ht, cp = some (pid, hpr, ht) → h ≠ ht) →
        h ∉ (execute tok ar inherit cp).closed) := by
  constructor
  · intro htok
    rcases cp with _ | ⟨pid, hpr, ht⟩ <;> simp [execute, htok]
  · intro h hmem hne hcp
    by_cases htok : tok = 0
    · by_cases har : ar
      · rcases cp with _ | ⟨pid, hpr, ht⟩ <;>
          simp [execute, htok, har]
        exact hcp pid hpr ht rfl
      · simp [execute, htok, har]
    · rcases cp with _ | ⟨pid, hpr, ht⟩ <;>
        simp [execute, htok]
      · exact hne
      · exact ⟨hcp pid hpr ht rfl, hne⟩

/-- C3 (witness): the amended theorem at token 100, inherited handle 42
and a successful process creation (7, 8, 9). -/
theorem execute_closes_token_never_inherited_witness :
    100 ∈ (execute 100 false [42] (some (7, 8, 9))).closed
    ∧ 42 ∉ (execute 100 false [42] (some (7, 8, 9))).closed :=
  ⟨(execute_closes_token_never_inherited 100 false [42] (some (7, 8, 9))).1 (by decide),
   (execute_closes_token_never_inherited 100 false [42] (some (7, 8, 9))).2 42 (by decide)
     (by decide)
     (by
       intro pid hpr ht hcp
       injection hcp with h1
       injection h1 with h2 h3
       injection h3 with h4 h5
       subst h5
       decide)⟩

/-- C4 (counterexample): the claim says a connection whose remote owner
is related to the expected child through a parent-pid chain of depth at
most 5 is accepted. With the child 9 whose parent is 4 (so remote pid 4
is an ancestor of the child within one step, per the spec-worded
relation) and the local endpoint owned by this process (pid 2), the code
still rejects the connection: isParentPid is an empty stub returning
undefined, so only an exact child-pid match can pass. -/
theorem checkConnection_parent_not_accepted :
    specAncestorWithin ppidSample 5 9 4 = true
    ∧ checkConnection 2 (some 9) (some (some 2, some 4)) = false := by decide

/-- C4 (amended): an inbound connection is accepted exactly when the
TCP-table lookup found the established pair, the local endpoint is owned
by this process, and the remote endpoint shows a nonzero owning pid
equal to the expected child pid; the parent-pid-chain clause of the
check never admits a connection, because isParentPid is an unimplemented
stub whose undefined return is falsy. A connection failing the check is
ended with no event emitted and no message handler installed (so no
connected or message event can ever fire for it). -/
theorem checkConnection_accepts_iff (selfPid c : Nat)
    (lookup : Option (Option Nat × Option Nat)) (st : ConnState) (sock : Nat) :
    (checkConnection selfPid (some c) lookup = true ↔
      lookup = some (some selfPid, some c) ∧ c ≠ 0)
    ∧ (checkConnection selfPid (some c) lookup = false →
        (connected st sock (checkConnection selfPid (some c) lookup)).2
          = { events := [], socketEnded := true, messageHandlerInstalled := false }
        ∧ (connected st sock (checkConnection selfPid (some c) lookup)).1 = st) := by
  constructor
  · rcases lookup with _ | ⟨lp, rp⟩
    · simp [checkConnection]
    · rcases rp with _ | r
      · simp [checkConnection]
      · simp only [checkConnection, isParentPid, Bool.or_false, Bool.and_eq_true,
          beq_iff_eq, bne_iff_ne, Option.some.injEq, Prod.mk.injEq]
        constructor
        · rintro ⟨⟨h1, h2⟩, h3⟩
          exact ⟨⟨h1, h3.symm⟩, h3 ▸ h2⟩
        · rintro ⟨⟨h1, h2⟩, h3⟩
          exact ⟨⟨h1, h2 ▸ h3⟩, h2.symm⟩
  · intro h
    rw [h]
    exact ⟨rfl, rfl⟩

/-- C4 (witness): the acceptance direction at a remote pid equal to the
expected child 9, and the rejection behavior at a lookup that found no
connection. -/
theorem checkConnection_accepts_iff_witness :
    checkConnection 2 (some 9) (some (some 2, some 9)) = true
    ∧ (connected initialConnState 3 (checkConnection 2 (some 9) none)).2
        = { events := [], socketEnded := true, messageHandlerInstalled := false } :=
  ⟨(checkConnection_accepts_iff 2 9 (some (some 2, some 9)) initialConnState 3).1.mpr
      ⟨rfl, by decide⟩,
   ((checkConnection_accepts_iff 2 9 none initialConnState 3).2 (by decide)).1⟩

/-- C5: evaluating gpiiStopped at the boundary: a tracked child that
crashed after exactly 20 seconds of life (hrtime seconds component 20)
is counted as a failed start — the counter goes from 0 to 1 and the
restart is throttled to 11 s — while only a crash at 21 s or later
resets the counter to 0. This contradicts the claim (and the comment in
the source) that a lifetime of at least 20 s counts as a healthy run. -/
theorem gpiiStopped_boundary_at_20s :
    gpiiStopped ⟨some 5, false, some 0⟩ (some 5) 20 = (⟨none, false, some 1⟩, some 11000)
    ∧ gpiiStopped ⟨some 5, false, some 0⟩ (some 5) 21 = (⟨none, false, some 0⟩, some 1000) := by
  decide

/-- C6: after connected accepts a socket (id 3), the JsonSocket is
stored on service.socket while gpiiConnection.socket stays null, so a
ping message throws a TypeError out of gotMessage before any reply or
republish — no pong is sent — whereas error and unknown-type messages
are republished with no reply as the claim describes. -/
theorem gotMessage_ping_throws :
    ((connected initialConnState 3 true).1.gpiiSocket = none)
    ∧ gotMessage (connected initialConnState 3 true).1 "ping" 42 = .threw
    ∧ gotMessage (connected initialConnState 3 true).1 "error" 1
        = .ok [] [("message.error", 1)]
    ∧ gotMessage (connected initialConnState 3 true).1 "custom" 7
        = .ok [] [("message.custom", 7)] := by decide

/-- C7: execute never creates a process when no interactive-user token
is available and alwaysRun is unset (it throws with nothing closed and
CreateProcessAsUser never invoked); with no token and alwaysRun set it
proceeds with token 0; with a token it proceeds with that token. -/
theorem execute_token_gate (tok : Nat) (ar : Bool) (inherit : List Nat)
    (cp : Option (Nat × Nat × Nat)) :
    (tok = 0 → ar = false →
        execute tok ar inherit cp = { result := none, closed := [], createdWithToken := none })
    ∧ (tok = 0 → ar = true → (execute tok ar inherit cp).createdWithToken = some 0)
    ∧ (tok ≠ 0 → (execute tok ar inherit cp).createdWithToken = some tok) := by
  refine ⟨?_, ?_, ?_⟩
  · intro h1 h2; simp [execute, h1, h2]
  · intro h1 h2
    rcases cp with _ | ⟨pid, hpr, ht⟩ <;> simp [execute, h1, h2]
  · intro h1
    rcases cp with _ | ⟨pid, hpr, ht⟩ <;> simp [execute, h1]

/-- C7 (witness): the three branches of the token gate at concrete
inputs. -/
theorem execute_token_gate_witness :
    execute 0 false [42] (some (7, 8, 9))
      = { result := none, closed := [], createdWithToken := none }
    ∧ (execute 0 true [42] (some (7, 8, 9))).createdWithToken = some 0
    ∧ (execute 100 true [] none).createdWithToken = some 100 :=
  ⟨(execute_token_gate 0 false [42] (some (7, 8, 9))).1 rfl rfl,
   (execute_token_gate 0 true [42] (some (7, 8, 9))).2.1 rfl rfl,
   (execute_token_gate 100 true [] none).2.2 (by decide)⟩

/-- Helper: base64 of a byte list whose length is 3 * k encodes to 4 * k
characters. -/
theorem base64EncodeTriples_length (k : Nat) :
    ∀ l : List Nat, l.length = 3 * k → (base64EncodeTriples l).length = 4 * k := by
  induction k with
  | zero =>
      intro l h
      have hl : l = [] := List.eq_nil_of_length_eq_zero (by omega)
      subst hl; rfl
  | succ k ih =>
      intro l h
      rcases l with _ | ⟨a, _ | ⟨b, _ | ⟨c, rest⟩⟩⟩
      · simp only [List.length_nil] at h; omega
      · simp only [List.length_cons, List.length_nil] at h; omega
      · simp only [List.length_cons, List.length_nil] at h; omega
      · have hr : rest.length = 3 * k := by
          simp only [List.length_cons] at h; omega
        simp [base64EncodeTriples, ih rest hr]
        omega

/-- C8: every generated pipe name (for any 18-byte random input) starts
with the reserved prefix, is at most 256 characters long, has a
non-empty body after the prefix, and the body contains neither a
forward slash nor a backslash. -/
theorem generatePipeName_valid (bytes : List Nat) (h : bytes.length = 18) :
    ((generatePipeName bytes).take 9 = pipePre)
    ∧ (generatePipeName bytes).length ≤ 256
    ∧ 1 ≤ ((generatePipeName bytes).drop 9).length
    ∧ ∀ c ∈ (generatePipeName bytes).drop 9, c ≠ '/' ∧ c ≠ '\\' := by
  have hlen : (base64EncodeTriples bytes).length = 24 :=
    base64EncodeTriples_length 6 bytes (by omega)
  have hrep : (replaceSlashes (base64EncodeTriples bytes)).length = 24 := by
    simp [replaceSlashes, hlen]
  have hsplit : generatePipeName bytes
      = pipePre ++ ('g' :: 'p' :: 'i' :: 'i' :: '-' ::
          replaceSlashes (base64EncodeTriples bytes)) := rfl
  have hpre : pipePre.length = 9 := rfl
  refine ⟨?_, ?_, ?_, ?_⟩
  · rw [hsplit]
    rw [← hpre, List.take_left]
  · rw [hsplit]
    simp [hrep, hpre]
  · rw [hsplit, ← hpre, List.drop_left]
    simp
  · rw [hsplit, ← hpre, List.drop_left]
    intro ch hch
    simp only [List.mem_cons] at hch
    rcases hch with rfl | rfl | rfl | rfl | rfl | hch
    · exact ⟨by decide, by decide⟩
    · exact ⟨by decide, by decide⟩
    · exact ⟨by decide, by decide⟩
    · exact ⟨by decide, by decide⟩
    · exact ⟨by decide, by decide⟩
    · rcases List.mem_map.mp hch with ⟨a, _, rfl⟩
      by_cases ha : a = '/' ∨ a = '\\'
      · simp [ha]
      · push_neg at ha
        simp [ha.1, ha.2]

/-- C8 (witness): the naming properties at the all-zero 18-byte input. -/
theorem generatePipeName_valid_witness :
    (List.replicate 18 0).length = 18
    ∧ (((generatePipeName (List.replicate 18 0)).take 9 = pipePre)
      ∧ (generatePipeName (List.replicate 18 0)).length ≤ 256
      ∧ 1 ≤ ((generatePipeName (List.replicate 18 0)).drop 9).length
      ∧ ∀ c ∈ (generatePipeName (List.replicate 18 0)).drop 9, c ≠ '/' ∧ c ≠ '\\') :=
  ⟨by decide, generatePipeName_valid (List.replicate 18 0) (by decide)⟩

/-- C9: a stopGPII call with a recorded (truthy) pid sends exactly one
kill signal to that pid and nulls the field, so the immediately
following stopGPII call sends no signal and changes nothing; and a call
with no recorded pid sends no signal and leaves the state unchanged. -/
theorem stopGPII_kills_once (st : GpiiProcessState) :
    (∀ p, st.pid = some p → p ≠ 0 →
      stopGPII st = (⟨none, st.startingGPII, st.restartCount⟩, [p])
      ∧ stopGPII (stopGPII st).1 = ((stopGPII st).1, []))
    ∧ (st.pid = none → stopGPII st = (st, [])) := by
  constructor
  · intro p hp h0
    constructor
    · simp [stopGPII, hp, h0]
    · simp [stopGPII, hp, h0]
  · intro hp
    simp [stopGPII, hp]

/-- C9 (witness): the kill-then-idempotence behavior at recorded pid 5
and at the empty state. -/
theorem stopGPII_kills_once_witness :
    stopGPII ⟨some 5, false, none⟩ = (⟨none, false, none⟩, [5])
    ∧ stopGPII ⟨none, false, none⟩ = (⟨none, false, none⟩, []) :=
  ⟨((stopGPII_kills_once ⟨some 5, false, none⟩).1 5 rfl (by decide)).1,
   (stopGPII_kills_once ⟨none, false, none⟩).2 rfl⟩

/-- C10: for every pid-file content in the claimed class — file missing
or unreadable, empty content, content that parseInt maps to NaN, or
content parsing to 0 — checkGPII reports null and never invokes the
process.kill liveness probe. -/
theorem checkGPII_null_on_bad_content (alive : Int → Bool) (content : Option String)
    (h : content = none ∨
        ∃ s, content = some s ∧ (parseIntJS s = none ∨ parseIntJS s = some 0)) :
    checkGPII alive content = (none, []) := by
  rcases h with h | ⟨s, rfl, h⟩
  · subst h; rfl
  · rcases h with h | h <;> simp [checkGPII, readPidFile, h]

/-- C10 (witness): the content "0" (which parseInt maps to 0) is neither
probed nor reported. -/
theorem checkGPII_null_on_bad_content_witness :
    checkGPII (fun _ => true) (some "0") = (none, []) :=
  checkGPII_null_on_bad_content (fun _ => true) (some "0")
    (Or.inr ⟨"0", rfl, Or.inr (by decide)⟩)

end GpiiService
